import Mathlib

/-!
Verification development for the zyspotify repository (src/zyspotify/respot.py).

Shallow embedding: the control flow of the Python functions is translated into
executable Lean definitions.  HTTP responses, byte streams and database rows are
abstracted to the data the control flow inspects (status codes, body shape,
byte counts, records); the network and the stream are scripted collaborators
passed in as functions.  Loops written with `while True` in the source are
embedded with an explicit fuel argument (structural recursion); a theorem about
a run always exhibits enough fuel.
-/

set_option maxRecDepth 20000

/-! ## Constants of respot.py (lines 27-29, 800-801) -/

def MAX_AUTH_GET_RETRIES : Nat := 10

def AUTH_GET_TIMEOUT : Nat := 10

def AUTH_GET_RETRY_MULTIPLE_SEC : Nat := 10

/-! ## AuthenticatedRequestClient: RespotRequest.authorized_get_request (lines 186-278)

An HTTP attempt is scripted as a `RespEvent`: either a delivered response
(status code plus the shape of its body as the code inspects it: not JSON
content-type, JSON that fails to decode, JSON decoding to an empty value, or
JSON decoding to a non-empty value) or one of the request-level exceptions the
code catches (`ConnectionError`, `Timeout`, `RequestException`).

The token pair is modelled as two natural numbers; `auth.refresh_token()` (an
external session collaborator, spec section 6) is modelled as producing a fresh
pair distinct from every earlier one, by using a generation counter.  The state
also records the number of HTTP attempts issued, the number of refreshes and
the trace of `time.sleep` durations, so the theorems can speak about them.
-/

inductive JsonBody
  | notJson
  | jsonMalformed
  | jsonEmpty
  | jsonNonEmpty
deriving DecidableEq

inductive RespEvent
  | delivered (status : Nat) (body : JsonBody)
  | connError
  | timeout
  | reqException
deriving DecidableEq

structure Resp where
  status : Nat
  body : JsonBody
deriving DecidableEq

/-- Outcome of one call to `authorized_get_request`:
`ok r` models `return response`; `returnedNone` models the Python function
falling off its end (implicit `return None`); `tooManyRetries` models the
`RuntimeError("Connection Error: Too many retries")` propagating to the
caller; `fuelOut` is the embedding artifact for exhausted fuel. -/
inductive GetOutcome
  | ok (r : Resp)
  | returnedNone
  | tooManyRetries
  | fuelOut
deriving DecidableEq

structure ReqState where
  token : Nat
  tokenYourLibrary : Nat
  attempts : Nat
  refreshes : Nat
  sleeps : List Nat
deriving DecidableEq

def initReqState : ReqState := ⟨0, 0, 0, 0, []⟩

/-- The Python `retry()` helper's value is used as a statement, so its result
is discarded: if the recursive call raised (`tooManyRetries`) the exception
propagates, otherwise control falls off the end of the `except` handler and the
function returns `None`. -/
def discardOutcome : GetOutcome × ReqState → GetOutcome × ReqState
  | (.tooManyRetries, s) => (.tooManyRetries, s)
  | (.fuelOut, s) => (.fuelOut, s)
  | (_, s) => (.returnedNone, s)

/-- The in-`try` calls to `retry()` (204 and empty-JSON cases, lines 219 and
230): a raised `RuntimeError` propagates; otherwise control continues in the
`try` block and reaches `return response`, returning the original response
`r`. -/
def keepResponse (r : Resp) : GetOutcome × ReqState → GetOutcome × ReqState
  | (.tooManyRetries, s) => (.tooManyRetries, s)
  | (.fuelOut, s) => (.fuelOut, s)
  | (_, s) => (.ok r, s)

/-- `time.sleep(retry_count * AUTH_GET_RETRY_MULTIPLE_SEC)` performed at the
start of `retry()` (line 196). -/
def sleepForRetry (rc : Nat) (s : ReqState) : ReqState :=
  { s with sleeps := s.sleeps ++ [rc * AUTH_GET_RETRY_MULTIPLE_SEC] }

/-- Embedding of `RespotRequest.authorized_get_request` (lines 186-278).
Arguments: the scripted responses (attempt index to event), fuel, the
`retry_count` parameter, and the client state.  The fuel only drives the
structural recursion; starting fuel `MAX_AUTH_GET_RETRIES + 2` can never run
out because the `retry_count > MAX_AUTH_GET_RETRIES` guard fires first. -/
def authorized_get_request (script : Nat → RespEvent) :
    Nat → Nat → ReqState → GetOutcome × ReqState
  | 0, _, st => (.fuelOut, st)
  | fuel + 1, rc, st =>
    if rc > MAX_AUTH_GET_RETRIES then
      -- line 189-193: raise RuntimeError("Connection Error: Too many retries")
      (.tooManyRetries, st)
    else
      -- line 208-213: requests.get(...)
      let st1 : ReqState := { st with attempts := st.attempts + 1 }
      match script rc with
      | .connError =>
        -- lines 237-242
        discardOutcome (authorized_get_request script fuel (rc + 1) (sleepForRetry rc st1))
      | .timeout =>
        -- lines 259-264
        discardOutcome (authorized_get_request script fuel (rc + 1) (sleepForRetry rc st1))
      | .reqException =>
        -- lines 273-278
        discardOutcome (authorized_get_request script fuel (rc + 1) (sleepForRetry rc st1))
      | .delivered status body =>
        if 400 ≤ status ∧ status < 600 then
          -- response.raise_for_status() raised HTTPError (lines 244-257)
          if status = 401 then
            -- refresh both tokens (line 247), then retry() (line 257)
            let g := st1.refreshes + 1
            let st2 : ReqState :=
              { st1 with token := g, tokenYourLibrary := g, refreshes := g }
            discardOutcome (authorized_get_request script fuel (rc + 1) (sleepForRetry rc st2))
          else if status = 404 then
            -- line 249-250: return response
            (.ok ⟨status, body⟩, st1)
          else
            discardOutcome (authorized_get_request script fuel (rc + 1) (sleepForRetry rc st1))
        else
          if status = 204 then
            -- lines 217-219: retry() whose value is dropped, then fall through
            -- to `return response` (line 235) with the original 204 response
            keepResponse ⟨status, body⟩
              (authorized_get_request script fuel (rc + 1) (sleepForRetry rc st1))
          else
            match body with
            | .jsonMalformed =>
              -- response.json() raised JSONDecodeError (lines 266-271)
              discardOutcome (authorized_get_request script fuel (rc + 1) (sleepForRetry rc st1))
            | .jsonEmpty =>
              -- lines 227-230: retry() whose value is dropped, then fall
              -- through to `return response` (line 235)
              keepResponse ⟨status, body⟩
                (authorized_get_request script fuel (rc + 1) (sleepForRetry rc st1))
            | .jsonNonEmpty =>
              -- line 235: typical, errorless case
              (.ok ⟨status, body⟩, st1)
            | .notJson =>
              -- content-type not JSON: no decode check, return response
              (.ok ⟨status, body⟩, st1)

/-- The failure classes of spec section 7 that lead to a retry: connection
failure, timeout, request exception, HTTP error status other than 404
(including 401), malformed JSON body, empty JSON body, and 204 No Content. -/
def TransientEvent : RespEvent → Prop
  | .connError => True
  | .timeout => True
  | .reqException => True
  | .delivered status body =>
      (400 ≤ status ∧ status < 600 ∧ status ≠ 404)
      ∨ (status < 400 ∧ (status = 204 ∨ body = .jsonMalformed ∨ body = .jsonEmpty))

instance : DecidablePred TransientEvent := fun e =>
  match e with
  | .connError => isTrue trivial
  | .timeout => isTrue trivial
  | .reqException => isTrue trivial
  | .delivered _ _ => inferInstanceAs (Decidable (_ ∨ _))

/-- Script for the refresh-on-401 scenario: first attempt gets a 401, every
later attempt gets a well-formed 200. -/
def script401Then200 : Nat → RespEvent := fun i =>
  if i = 0 then .delivered 401 .jsonNonEmpty else .delivered 200 .jsonNonEmpty

/-- Script for the 204 scenario: first attempt gets a 204 No Content, every
later attempt gets a well-formed 200. -/
def script204Then200 : Nat → RespEvent := fun i =>
  if i = 0 then .delivered 204 .notJson else .delivered 200 .jsonNonEmpty

/-- Script for the empty-JSON-body scenario: first attempt gets a 200 whose
JSON body decodes to an empty value, every later attempt a well-formed 200. -/
def scriptEmptyThen200 : Nat → RespEvent := fun i =>
  if i = 0 then .delivered 200 .jsonEmpty else .delivered 200 .jsonNonEmpty

/-! ## PaginatedCollector: the short-page pagination loops

`get_all_user_playlists` (lines 323-340), `get_playlist_songs` (342-366),
`request_all_album_songs` (392-437), `get_liked_tracks` (509-533) and
`get_show_episodes` (564-588) all share the same loop: request the page at
`offset`, advance `offset` by `limit`, append the page's items to the
accumulator, and `break` exactly when the page has strictly fewer than `limit`
items.  `paginatedSweep` embeds that loop (the per-endpoint record packing is
one-for-one on a page's items and does not affect the property, so items are
kept abstract); the remote endpoint is scripted as a function from the
requested `offset` to the served page.  Fuel drives the recursion; `none`
means the loop did not finish within the fuel. -/

def paginatedSweep {α : Type} (pages : Nat → List α) (limit : Nat) :
    Nat → Nat → List α → Nat → Option (List α × Nat)
  | 0, _, _, _ => none
  | fuel + 1, offset, acc, reqs =>
    let resp := pages offset
    let acc2 := acc ++ resp
    if resp.length < limit then some (acc2, reqs + 1)
    else paginatedSweep pages limit fuel (offset + limit) acc2 (reqs + 1)

/-- `RespotRequest.get_all_user_playlists` (lines 323-340): the sweep with
`limit = 50` starting at offset 0. -/
def get_all_user_playlists {α : Type} (pages : Nat → List α) (fuel : Nat) :
    Option (List α × Nat) :=
  paginatedSweep pages 50 fuel 0 [] 0

/-- `RespotRequest.request_all_artist_albums` (lines 484-495): despite setting
up `offset = 0` and `limit = 50`, this function has no loop at all — it issues
exactly one request at offset 0 and returns that page's items. -/
def request_all_artist_albums {α : Type} (pages : Nat → List α) : List α × Nat :=
  (pages 0, 1)

/-- The scripted endpoint serves the given list of pages at consecutive
offsets `offset, offset + limit, offset + 2 * limit, ...`. -/
def PagesAligned {α : Type} (pages : Nat → List α) (limit : Nat) :
    Nat → List (List α) → Prop
  | _, [] => True
  | offset, p :: rest => pages offset = p ∧ PagesAligned pages limit (offset + limit) rest

/-- Scripted endpoint for the C4 witness: a full page of 2 at offset 0, then a
short page at offset 2. -/
def c4pagesW : Nat → List Nat :=
  fun off => if off = 0 then [1, 2] else if off = 2 then [3] else []

/-- Scripted endpoint for the C4 counterexample: a full page of `limit = 50`
items at offset 0 and a short page at offset 50. -/
def c4pagesCE : Nat → List Nat :=
  fun off => if off = 0 then List.range 50 else if off = 50 then [50] else []

/-! ## RespotRequest.request_all_playlist_artists (lines 709-736)

Each page item either yields an `(artist id, artist name)` pair from
`song["track"]["artists"][0]` or raises a `KeyError` while being unpacked.
`extract_playlist_artists` embeds the `for` loop inside the `try` (lines
722-726): it walks the items in order, appending pairs, and stops with an
error flag at the first bad item, discarding the rest of the page.  The
`except KeyError: continue` (lines 727-729) skips the short-page check, which
the loop embedding reflects by recursing unconditionally when the flag is
set.  The final `sorted(removeDuplicates(...))` (line 736) is modelled by
`sortPairs` over `removeDuplicates`. -/

inductive PAItem
  | good (id name : Nat)
  | bad
deriving DecidableEq

def extract_playlist_artists : List PAItem → List (Nat × Nat) → List (Nat × Nat) × Bool
  | [], acc => (acc, false)
  | .good i n :: rest, acc => extract_playlist_artists rest (acc ++ [(i, n)])
  | .bad :: _, acc => (acc, true)

def request_all_playlist_artists_loop (pages : Nat → List PAItem) (limit : Nat) :
    Nat → Nat → List (Nat × Nat) → Nat → Option (List (Nat × Nat) × Nat)
  | 0, _, _, _ => none
  | fuel + 1, offset, acc, reqs =>
    let resp := pages offset
    let ex := extract_playlist_artists resp acc
    if ex.2 = true then
      -- KeyError: log and `continue`, skipping the short-page check
      request_all_playlist_artists_loop pages limit fuel (offset + limit) ex.1 (reqs + 1)
    else
      if resp.length < limit then some (ex.1, reqs + 1)
      else request_all_playlist_artists_loop pages limit fuel (offset + limit) ex.1 (reqs + 1)

/-- `removeDuplicates` (line 23): set of the pairs; order is canonicalized by
the subsequent sort, so keeping first occurrences is an equivalent model. -/
def removeDuplicates (l : List (Nat × Nat)) : List (Nat × Nat) := l.dedup

def pairLe (a b : Nat × Nat) : Bool := decide (a.1 < b.1 ∨ (a.1 = b.1 ∧ a.2 ≤ b.2))

def insertPair (x : Nat × Nat) : List (Nat × Nat) → List (Nat × Nat)
  | [] => [x]
  | y :: ys => if pairLe x y then x :: y :: ys else y :: insertPair x ys

/-- Python's `sorted` on the deduplicated pairs, as an insertion sort under
the lexicographic order on pairs. -/
def sortPairs (l : List (Nat × Nat)) : List (Nat × Nat) := l.foldr insertPair []

def request_all_playlist_artists (pages : Nat → List PAItem) (fuel : Nat) :
    Option (List (Nat × Nat) × Nat) :=
  (request_all_playlist_artists_loop pages 50 fuel 0 [] 0).map
    (fun r => (sortPairs (removeDuplicates r.1), r.2))

/-- Scripted endpoint for the C10 witness: the page at offset 0 is short but
contains a bad item, so the loop must continue to offset 50. -/
def c10pagesW : Nat → List PAItem := fun off => if off = 0 then [PAItem.bad] else []

/-! ## CacheGate: RespotRequest.get_album_songs (lines 379-390)

The persistent cache collaborator (`db_manager`, whose module is not part of
src/) is modelled from the spec, section 6: it exposes a per-entity
"have all X" completion boolean and bulk upsert of song records keyed by id,
plus the canonical read.  `get_album_songs` itself is embedded from the source:
if the completion flag is unset it performs the full paginated sweep
(`request_all_album_songs`, lines 392-437), stores all records, sets the flag,
and only then reads from the cache; otherwise it goes straight to the cache
read.  The trace of cache events and the sweep's request count are recorded so
the theorems can speak about them. -/

structure Song where
  id : Nat
  name : Nat
  trackNumber : Nat
  discNumber : Nat
  qualityKbps : Nat
  albumId : Nat
  artistId : Nat
deriving DecidableEq

structure AlbumTrackItem where
  id : Nat
  name : Nat
  trackNumber : Nat
  discNumber : Nat
deriving DecidableEq

/-- The slice of the persistent store that one album's songs touch. -/
structure AlbumSongsDb where
  haveAllAlbumSongs : Bool
  albumSongs : List Song
deriving DecidableEq

/-- Modelled from the spec: one step of the persistent cache collaborator's
"bulk upsert of song records keyed by id" (spec section 6; db.py is not under
src/): a record replaces the stored row with the same id, or is appended. -/
def upsert_song (rows : List Song) (s : Song) : List Song :=
  if rows.any (fun r => r.id == s.id) then
    rows.map (fun r => if r.id == s.id then s else r)
  else rows ++ [s]

/-- Modelled from the spec: `db_manager.store_album_songs` as a bulk upsert. -/
def store_album_songs (db : AlbumSongsDb) (songs : List Song) : AlbumSongsDb :=
  { db with albumSongs := songs.foldl upsert_song db.albumSongs }

/-- Modelled from the spec: `db_manager.set_have_album_songs`. -/
def set_have_album_songs (db : AlbumSongsDb) (b : Bool) : AlbumSongsDb :=
  { db with haveAllAlbumSongs := b }

/-- Modelled from the spec: `db_manager.have_all_album_songs`. -/
def have_all_album_songs (db : AlbumSongsDb) : Bool := db.haveAllAlbumSongs

/-- Modelled from the spec: `db_manager.get_album_songs`, the canonical read. -/
def db_get_album_songs (db : AlbumSongsDb) : List Song := db.albumSongs

/-- The record packing of `request_all_album_songs` (lines 421-432); the
quality-to-kbps mapping of lines 404-409 is supplied as a parameter. -/
def pack_album_song (qualityKbps albumId artistId : Nat) (it : AlbumTrackItem) : Song :=
  ⟨it.id, it.name, it.trackNumber, it.discNumber, qualityKbps, albumId, artistId⟩

/-- `RespotRequest.request_all_album_songs` (lines 392-437): the short-page
sweep with `limit = 50` packing each page item into a song record. -/
def request_all_album_songs (pages : Nat → List AlbumTrackItem)
    (qualityKbps albumId artistId : Nat) :
    Nat → Nat → List Song → Nat → Option (List Song × Nat)
  | 0, _, _, _ => none
  | fuel + 1, offset, acc, reqs =>
    let resp := pages offset
    let acc2 := acc ++ resp.map (pack_album_song qualityKbps albumId artistId)
    if resp.length < 50 then some (acc2, reqs + 1)
    else request_all_album_songs pages qualityKbps albumId artistId fuel
      (offset + 50) acc2 (reqs + 1)

/-- Observable cache events of one `get_album_songs` call, in order. -/
inductive CacheEv
  | populate
  | store
  | markComplete
deriving DecidableEq

/-- `RespotRequest.get_album_songs` (lines 379-390).  Returns the value the
Python function returns, the updated store, the trace of cache events, and the
number of network requests issued; `none` only if the sweep ran out of fuel. -/
def get_album_songs (pages : Nat → List AlbumTrackItem)
    (qualityKbps albumId artistId fuel : Nat) (db : AlbumSongsDb) :
    Option (List Song × AlbumSongsDb × List CacheEv × Nat) :=
  if !(have_all_album_songs db) then
    match request_all_album_songs pages qualityKbps albumId artistId fuel 0 [] 0 with
    | none => none
    | some (songs, reqs) =>
      let db1 := store_album_songs db songs
      let db2 := set_have_album_songs db1 true
      some (db_get_album_songs db2, db2, [.populate, .store, .markComplete], reqs)
  else
    some (db_get_album_songs db, db, [], 0)

/-! ## StreamingDownloader: RespotTrackHandler.download_audio (lines 817-867)

Only the chunked read loop (lines 832-867) has non-trivial control flow; the
stream opening and track/episode fallback involve the external librespot
session.  The byte stream is scripted as a function from (read-call index,
requested byte count) to a `ReadResult`: either `data n` (a read returning
`n` bytes — the loop only inspects lengths, so buffers are modelled by byte
counts) or `indexError` (the librespot `IndexError`, upon which the function
returns `None`).  Each read call is recorded as a `ReadRec` so the theorems
can speak about the request sizes and the call count. -/

def CHUNK_SIZE : Nat := 50000

def RETRY_DOWNLOAD : Nat := 30

inductive ReadResult
  | data (n : Nat)
  | indexError
deriving DecidableEq

structure ReadRec where
  downloadedBefore : Nat
  requested : Nat
  returned : Nat
deriving DecidableEq

inductive DownloadOutcome
  | aborted
  | finished (downloaded : Nat) (trace : List ReadRec)
  | fuelOut
deriving DecidableEq

/-- The `while downloaded < total_size` loop of `download_audio`
(lines 838-858).  State: fuel, `downloaded`, `fail_count`, the read-call
index, and the trace of performed reads. -/
def download_audio_loop (stream : Nat → Nat → ReadResult) (totalSize : Nat) :
    Nat → Nat → Nat → Nat → List ReadRec → DownloadOutcome
  | 0, _, _, _, _ => .fuelOut
  | fuel + 1, downloaded, failCount, readIdx, trace =>
    if downloaded < totalSize then
      match stream readIdx (min CHUNK_SIZE (totalSize - downloaded)) with
      | .indexError => .aborted
      | .data n =>
        if n = 0 then
          if RETRY_DOWNLOAD < failCount + 1 then
            .finished downloaded
              (trace ++ [⟨downloaded, min CHUNK_SIZE (totalSize - downloaded), n⟩])
          else download_audio_loop stream totalSize fuel downloaded (failCount + 1)
            (readIdx + 1)
            (trace ++ [⟨downloaded, min CHUNK_SIZE (totalSize - downloaded), n⟩])
        else
          download_audio_loop stream totalSize fuel (downloaded + n) 0 (readIdx + 1)
            (trace ++ [⟨downloaded, min CHUNK_SIZE (totalSize - downloaded), n⟩])
    else .finished downloaded trace

/-! ## FormatSniffer: RespotTrackHandler.determine_file_extension (lines 885-900)

Bytes are modelled as natural numbers below 256 in a list; `audio_bytes.read(16)`
is `List.take 16`; Python's `startswith` is `List.isPrefixOf` and `in` (substring
containment) is `List.isInfixOf`; the `ValueError("The audio stream is
malformed.")` is the `Except.error` outcome. -/

inductive AudioFormat
  | mp3
  | wav
  | flac
  | ogg
deriving DecidableEq

/-- Python's substring containment `needle in haystack` on byte strings. -/
def bytesContain (needle : List Nat) : List Nat → Bool
  | [] => needle.isPrefixOf []
  | b :: rest => needle.isPrefixOf (b :: rest) || bytesContain needle rest

def determine_file_extension (audioBytes : List Nat) : Except String AudioFormat :=
  let magicBytes := audioBytes.take 16
  if [255, 251].isPrefixOf magicBytes || [255, 250].isPrefixOf magicBytes then
    .ok .mp3
  else if bytesContain [82, 73, 70, 70] magicBytes
      && bytesContain [87, 65, 86, 69] magicBytes then
    .ok .wav
  else if [102, 76, 97, 67].isPrefixOf magicBytes then
    .ok .flac
  else if [79, 103, 103, 83].isPrefixOf magicBytes then
    .ok .ogg
  else
    .error "The audio stream is malformed."

/-! ## Lyrics: RespotRequest.request_song_lyrics timestamp lines (lines 775-794)

Strings are modelled as lists of characters; Python's `str(int)` for a
non-negative int is `Nat.toDigits 10`; `str.zfill(2)` is `zfill2`; the slice
`[:2]` is `List.take 2`.  `lrc_timestamp` embeds the timestamp computation of
lines 783-788; `write_lyric_line` the two writer branches (lines 775-791). -/

def natStr (n : Nat) : List Char := Nat.toDigits 10 n

def zfill2 (s : List Char) : List Char :=
  if s.length < 2 then List.replicate (2 - s.length) '0' ++ s else s

/-- The `[mm:ss.cc]` timestamp exactly as lines 783-788 compute it: minutes
`t / 60000`, seconds `(t % 60000) / 1000`, and for the fraction the FIRST TWO
CHARACTERS of the decimal representation of `t % 1000`, each zfill(2)ed. -/
def lrc_timestamp (t : Nat) : List Char :=
  '[' :: zfill2 (natStr (t / 60000))
    ++ ':' :: zfill2 (natStr ((t % 60000) / 1000))
    ++ '.' :: zfill2 ((natStr (t % 1000)).take 2)
    ++ [']']

/-- The timestamp as the claim words it: the centisecond field is
`floor((t % 1000) / 10)`, zero-padded to two digits. -/
def lrc_timestamp_spec (t : Nat) : List Char :=
  '[' :: zfill2 (natStr (t / 60000))
    ++ ':' :: zfill2 (natStr ((t % 60000) / 1000))
    ++ '.' :: zfill2 (natStr ((t % 1000) / 10))
    ++ [']']

inductive SyncType
  | unsynced
  | lineSynced
deriving DecidableEq

structure LyricLine where
  startTimeMs : Nat
  words : List Char

/-- One written line: UNSYNCED lines are the words alone (lines 776-778),
LINE_SYNCED lines carry the timestamp (lines 781-791). -/
def write_lyric_line : SyncType → LyricLine → List Char
  | .unsynced, l => l.words ++ ['\n']
  | .lineSynced, l => lrc_timestamp l.startTimeMs ++ l.words ++ ['\n']

/-! ## Theorems: helper lemmas and one theorem per claim -/

theorem sleeps_range_shift (rc C d : Nat) :
    (rc * C) :: (List.range d).map (fun j => (rc + 1 + j) * C)
      = (List.range (d + 1)).map (fun j => (rc + j) * C) := by
  rw [List.range_succ_eq_map, List.map_cons, List.map_map]
  refine congrArg₂ List.cons ?_ (List.map_congr_left ?_)
  · show rc * C = (rc + 0) * C
    ring
  · intro j _
    show (rc + 1 + j) * C = (rc + (j + 1)) * C
    ring

/-- One transient attempt: the call unfolds to a retry wrapper
(`discardOutcome` for the exception handlers, `keepResponse` for the in-`try`
204/empty-JSON retries) around the recursive call with an incremented retry
count, a sleep of `retry_count * AUTH_GET_RETRY_MULTIPLE_SEC` recorded, and one
more attempt recorded. -/
theorem transient_step (script : Nat → RespEvent) (fuel rc : Nat) (st : ReqState)
    (hrc : ¬ rc > MAX_AUTH_GET_RETRIES) (ht : TransientEvent (script rc)) :
    ∃ stMid : ReqState, stMid.attempts = st.attempts + 1 ∧ stMid.sleeps = st.sleeps ∧
      ((∃ r, authorized_get_request script (fuel + 1) rc st
          = keepResponse r
              (authorized_get_request script fuel (rc + 1) (sleepForRetry rc stMid)))
        ∨ authorized_get_request script (fuel + 1) rc st
          = discardOutcome
              (authorized_get_request script fuel (rc + 1) (sleepForRetry rc stMid))) := by
  cases hev : script rc with
  | connError =>
    exact ⟨{ st with attempts := st.attempts + 1 }, rfl, rfl,
      Or.inr (by simp [authorized_get_request, hev, hrc])⟩
  | timeout =>
    exact ⟨{ st with attempts := st.attempts + 1 }, rfl, rfl,
      Or.inr (by simp [authorized_get_request, hev, hrc])⟩
  | reqException =>
    exact ⟨{ st with attempts := st.attempts + 1 }, rfl, rfl,
      Or.inr (by simp [authorized_get_request, hev, hrc])⟩
  | delivered status body =>
    rw [hev] at ht
    rcases ht with ⟨hge, hlt, hne⟩ | ⟨hlt4, hsub⟩
    · by_cases h401 : status = 401
      · subst h401
        exact ⟨⟨st.refreshes + 1, st.refreshes + 1, st.attempts + 1,
            st.refreshes + 1, st.sleeps⟩, rfl, rfl,
          Or.inr (by simp [authorized_get_request, hev, hrc])⟩
      · exact ⟨{ st with attempts := st.attempts + 1 }, rfl, rfl,
          Or.inr (by simp [authorized_get_request, hev, hrc, hge, hlt, h401, hne])⟩
    · have hno : ¬ (400 ≤ status ∧ status < 600) := by omega
      by_cases h204 : status = 204
      · subst h204
        exact ⟨{ st with attempts := st.attempts + 1 }, rfl, rfl,
          Or.inl ⟨⟨204, body⟩, by simp [authorized_get_request, hev, hrc]⟩⟩
      · rcases hsub with h | hbody | hbody
        · exact absurd h h204
        · subst hbody
          exact ⟨{ st with attempts := st.attempts + 1 }, rfl, rfl,
            Or.inr (by simp [authorized_get_request, hev, hrc, hno, h204])⟩
        · subst hbody
          exact ⟨{ st with attempts := st.attempts + 1 }, rfl, rfl,
            Or.inl ⟨⟨status, .jsonEmpty⟩,
              by simp [authorized_get_request, hev, hrc, hno, h204]⟩⟩

/-- If every attempt from `rc` up to the retry ceiling meets a transient
failure, the call raises the retries-exhausted error after performing exactly
one attempt per remaining retry budget, with the linear-backoff sleeps
recorded. -/
theorem auth_retry_exhaustion_aux (script : Nat → RespEvent) :
    ∀ (d : Nat), ∀ (rc : Nat) (st : ReqState), rc + d = MAX_AUTH_GET_RETRIES + 1 →
      (∀ i, rc ≤ i → i ≤ MAX_AUTH_GET_RETRIES → TransientEvent (script i)) →
      ∃ st2, authorized_get_request script (d + 1) rc st = (.tooManyRetries, st2)
        ∧ st2.attempts = st.attempts + d
        ∧ st2.sleeps = st.sleeps
            ++ (List.range d).map (fun j => (rc + j) * AUTH_GET_RETRY_MULTIPLE_SEC) := by
  intro d
  induction d with
  | zero =>
    intro rc st hrc _
    have h : rc > MAX_AUTH_GET_RETRIES := by omega
    exact ⟨st, by simp [authorized_get_request, h], by omega, by simp⟩
  | succ d ih =>
    intro rc st hrc htrans
    have hrc' : ¬ rc > MAX_AUTH_GET_RETRIES := by
      simp only [MAX_AUTH_GET_RETRIES] at hrc ⊢; omega
    obtain ⟨stMid, hA, hS, hcase⟩ :=
      transient_step script (d + 1) rc st hrc' (htrans rc (Nat.le_refl rc) (by omega))
    obtain ⟨st2, h1, h2, h3⟩ := ih (rc + 1) (sleepForRetry rc stMid) (by omega)
      (fun i hi hi' => htrans i (by omega) hi')
    refine ⟨st2, ?_, ?_, ?_⟩
    · rcases hcase with ⟨r, he⟩ | he <;> rw [he, h1] <;> rfl
    · have : (sleepForRetry rc stMid).attempts = st.attempts + 1 := by
        simp [sleepForRetry, hA]
      omega
    · rw [h3]
      have : (sleepForRetry rc stMid).sleeps
          = st.sleeps ++ [rc * AUTH_GET_RETRY_MULTIPLE_SEC] := by
        simp [sleepForRetry, hS]
      rw [this, List.append_assoc, List.singleton_append, sleeps_range_shift]

/-- Claim C1 (code bug witness): on the scripted sequence [401, 200] the
client does refresh both tokens exactly once before retrying (refresh count 1,
stored token pair (1,1) differs from the pre-call pair (0,0), two attempts,
one zero-length backoff sleep), but the call returns `None` instead of the 200
response: the `except` handler at line 257 calls `retry()` without returning
its value, so the retried 200 response is discarded. -/
theorem c1_refresh_on_401_discards_retried_response :
    authorized_get_request script401Then200 (MAX_AUTH_GET_RETRIES + 2) 0 initReqState
        = (.returnedNone,
            { token := 1, tokenYourLibrary := 1, attempts := 2,
              refreshes := 1, sleeps := [0] })
      ∧ (authorized_get_request script401Then200 (MAX_AUTH_GET_RETRIES + 2) 0
            initReqState).1 ≠ .ok ⟨200, .jsonNonEmpty⟩ := by
  constructor <;> decide

/-- Claim C2: on any response sequence whose first `MAX_AUTH_GET_RETRIES + 1`
entries are all transient failures, `authorized_get_request` performs exactly
`MAX_AUTH_GET_RETRIES + 1` attempts, records the linear-backoff sleeps
`0, 10, ..., 100` (the retry for attempt `i` waits `i * 10` time units, zero
for attempt 0), and surfaces the fatal retries-exhausted `RuntimeError` to the
caller. -/
theorem c2_retry_ceiling_exhaustion (script : Nat → RespEvent)
    (h : ∀ i, i ≤ MAX_AUTH_GET_RETRIES → TransientEvent (script i)) :
    ∃ st2, authorized_get_request script (MAX_AUTH_GET_RETRIES + 2) 0 initReqState
          = (.tooManyRetries, st2)
        ∧ st2.attempts = MAX_AUTH_GET_RETRIES + 1
        ∧ st2.sleeps = (List.range (MAX_AUTH_GET_RETRIES + 1)).map
            (fun j => j * AUTH_GET_RETRY_MULTIPLE_SEC) := by
  obtain ⟨st2, h1, h2, h3⟩ := auth_retry_exhaustion_aux script (MAX_AUTH_GET_RETRIES + 1) 0
    initReqState (by omega) (fun i _ hi => h i hi)
  refine ⟨st2, h1, by simpa [initReqState] using h2, ?_⟩
  rw [h3]
  simp [initReqState]

/-- Witness for C2: the all-connection-errors script. -/
theorem c2_retry_ceiling_exhaustion_witness :
    ∃ st2, authorized_get_request (fun _ => RespEvent.connError)
          (MAX_AUTH_GET_RETRIES + 2) 0 initReqState = (.tooManyRetries, st2)
        ∧ st2.attempts = MAX_AUTH_GET_RETRIES + 1
        ∧ st2.sleeps = (List.range (MAX_AUTH_GET_RETRIES + 1)).map
            (fun j => j * AUTH_GET_RETRY_MULTIPLE_SEC) :=
  c2_retry_ceiling_exhaustion (fun _ => RespEvent.connError) (fun _ _ => trivial)

/-- Claim C3 (code bug witness): a 204 No Content response and a 200 response
with an empty JSON body — neither a 404 nor a success in the claim's sense —
are each returned to the caller: the in-`try` calls to `retry()` at lines 219
and 230 do not return their value, so after the (discarded) retry the function
falls through to `return response` at line 235 with the original bad
response. -/
theorem c3_204_and_empty_json_returned_to_caller :
    (authorized_get_request script204Then200 (MAX_AUTH_GET_RETRIES + 2) 0
        initReqState).1 = .ok ⟨204, .notJson⟩
      ∧ (authorized_get_request scriptEmptyThen200 (MAX_AUTH_GET_RETRIES + 2) 0
          initReqState).1 = .ok ⟨200, .jsonEmpty⟩ := by
  constructor <;> decide

theorem paginatedSweep_complete {α : Type} (limit : Nat) :
    ∀ (front : List (List α)) (lastPage : List α) (pages : Nat → List α)
      (offset : Nat) (acc : List α) (reqs : Nat),
      (∀ p ∈ front, p.length = limit) → lastPage.length < limit →
      PagesAligned pages limit offset (front ++ [lastPage]) →
      paginatedSweep pages limit (front.length + 1) offset acc reqs
        = some (acc ++ (front ++ [lastPage]).flatten, reqs + (front.length + 1)) := by
  intro front
  induction front with
  | nil =>
    intro lastPage pages offset acc reqs _ hshort halign
    obtain ⟨h1, -⟩ := halign
    simp [paginatedSweep, h1, hshort]
  | cons p front ih =>
    intro lastPage pages offset acc reqs hfull hshort halign
    obtain ⟨h1, halign'⟩ := halign
    have hp : p.length = limit := hfull p (List.mem_cons_self p front)
    have hnot : ¬ (pages offset).length < limit := by rw [h1]; omega
    have hrec := ih lastPage pages (offset + limit) (acc ++ pages offset) (reqs + 1)
      (fun q hq => hfull q (List.mem_cons_of_mem p hq)) hshort halign'
    have hstep : paginatedSweep pages limit ((p :: front).length + 1) offset acc reqs
        = if (pages offset).length < limit then some (acc ++ pages offset, reqs + 1)
          else paginatedSweep pages limit (front.length + 1) (offset + limit)
            (acc ++ pages offset) (reqs + 1) := rfl
    rw [hstep, if_neg hnot, hrec, h1]
    simp only [List.cons_append, List.flatten_cons, List.length_cons,
      Option.some.injEq, Prod.mk.injEq]
    exact ⟨by rw [List.append_assoc], by omega⟩

theorem sweep_request_count (limit f k : Nat) (hl : 0 < limit) (hk : k < limit) :
    f + 1 = if k = 0 then (f * limit + k) / limit + 1
            else (f * limit + k + limit - 1) / limit := by
  by_cases h : k = 0
  · subst h
    simp [Nat.mul_div_cancel _ hl]
  · rw [if_neg h]
    have h1 : 1 ≤ k := Nat.one_le_iff_ne_zero.mpr h
    have he : f * limit + k + limit - 1 = limit * (f + 1) + (k - 1) := by
      rw [Nat.mul_add, Nat.mul_one, Nat.mul_comm limit f]
      omega
    rw [he, Nat.mul_add_div hl, Nat.div_eq_of_lt (by omega)]

/-- Claim C4 (amended): the looping sweeps (user playlists, playlist songs,
album songs, liked tracks, show episodes) start at offset 0, advance by
`limit` per round, terminate exactly on the first page with strictly fewer
than `limit` items, return the concatenation of all pages' items, and issue
exactly `ceil(total/limit)` requests (one more when the total is an exact
multiple of `limit`); but `request_all_artist_albums` performs no loop at all:
it issues exactly one request at offset 0 and returns only that first page's
items. -/
theorem c4_pagination_sweep_amended :
    (∀ (α : Type) (limit : Nat) (front : List (List α)) (lastPage : List α)
        (pages : Nat → List α), 0 < limit →
        (∀ p ∈ front, p.length = limit) → lastPage.length < limit →
        PagesAligned pages limit 0 (front ++ [lastPage]) →
        paginatedSweep pages limit (front.length + 1) 0 [] 0
            = some ((front ++ [lastPage]).flatten, front.length + 1)
          ∧ front.length + 1
              = (if lastPage.length = 0
                 then (front.length * limit + lastPage.length) / limit + 1
                 else (front.length * limit + lastPage.length + limit - 1) / limit))
      ∧ (∀ (α : Type) (pages : Nat → List α),
          request_all_artist_albums pages = (pages 0, 1)) := by
  refine ⟨?_, fun α pages => rfl⟩
  intro α limit front lastPage pages hl hfull hshort halign
  refine ⟨?_, sweep_request_count limit front.length lastPage.length hl hshort⟩
  simpa using paginatedSweep_complete limit front lastPage pages 0 [] 0 hfull hshort halign

/-- Witness for C4 (amended): two pages with limit 2, last page short. -/
theorem c4_pagination_sweep_amended_witness :
    paginatedSweep c4pagesW 2 2 0 [] 0 = some ([1, 2, 3], 2) := by
  have h := (c4_pagination_sweep_amended.1 Nat 2 [[1, 2]] [3] c4pagesW (by decide)
    (by decide) (by decide) (by simp [PagesAligned, c4pagesW])).1
  simpa using h

/-- Claim C4 counterexample: on a two-page sequence (first page exactly
`limit = 50` items, second page short), the claim demands
`ceil(51/50) = 2` requests and the concatenation of both pages, but
`request_all_artist_albums` issues exactly one request and returns only the
first page's items. -/
theorem c4_artist_albums_no_loop_counterexample :
    (List.range 50).length = 50
      ∧ ([50] : List Nat).length < 50
      ∧ c4pagesCE 0 = List.range 50 ∧ c4pagesCE 50 = [50]
      ∧ request_all_artist_albums c4pagesCE = (List.range 50, 1)
      ∧ request_all_artist_albums c4pagesCE ≠ (List.range 50 ++ [50], 2) := by
  refine ⟨by decide, by decide, rfl, rfl, rfl, by decide⟩

theorem playlist_artists_loop_reqs_lt (pages : Nat → List PAItem) (limit : Nat) :
    ∀ fuel offset acc reqs res,
      request_all_playlist_artists_loop pages limit fuel offset acc reqs = some res →
      reqs < res.2 := by
  intro fuel
  induction fuel with
  | zero =>
    intro offset acc reqs res h
    simp [request_all_playlist_artists_loop] at h
  | succ fuel ih =>
    intro offset acc reqs res h
    cases hx : extract_playlist_artists (pages offset) acc with
    | mk acc2 b =>
      simp only [request_all_playlist_artists_loop, hx] at h
      cases b
      · simp only [Bool.false_eq_true, if_false] at h
        split at h
        · have h2 := Option.some.inj h
          subst h2
          simp
        · have := ih (offset + limit) acc2 (reqs + 1) res h
          omega
      · simp only [if_pos rfl] at h
        have := ih (offset + limit) acc2 (reqs + 1) res h
        omega

theorem extract_stops_at_bad :
    ∀ (pre : List (Nat × Nat)) (rest : List PAItem) (acc : List (Nat × Nat)),
      extract_playlist_artists
          (pre.map (fun p => PAItem.good p.1 p.2) ++ PAItem.bad :: rest) acc
        = (acc ++ pre, true) := by
  intro pre
  induction pre with
  | nil => intro rest acc; simp [extract_playlist_artists]
  | cons p pre ih =>
    intro rest acc
    show extract_playlist_artists
        (pre.map (fun p => PAItem.good p.1 p.2) ++ PAItem.bad :: rest)
        (acc ++ [(p.1, p.2)]) = (acc ++ p :: pre, true)
    rw [ih]
    simp [List.append_assoc]

/-- Claim C10: if extracting artists from a fetched page hits a bad item, the
items before it are kept and the rest of the page is discarded (first
conjunct); the short-page termination check for that page is skipped, so the
loop unconditionally requests the next offset (second conjunct); and the
sweep stops right at a page only if that page both parsed cleanly and has
fewer items than `limit` (third conjunct). -/
theorem c10_keyerror_skips_short_page_check :
    (∀ (pre : List (Nat × Nat)) (rest : List PAItem) (acc : List (Nat × Nat)),
        extract_playlist_artists
            (pre.map (fun p => PAItem.good p.1 p.2) ++ PAItem.bad :: rest) acc
          = (acc ++ pre, true))
      ∧ (∀ pages limit fuel offset acc reqs,
          (extract_playlist_artists (pages offset) acc).2 = true →
          request_all_playlist_artists_loop pages limit (fuel + 1) offset acc reqs
            = request_all_playlist_artists_loop pages limit fuel (offset + limit)
                (extract_playlist_artists (pages offset) acc).1 (reqs + 1))
      ∧ (∀ pages limit fuel offset acc reqs res,
          request_all_playlist_artists_loop pages limit (fuel + 1) offset acc reqs
              = some res →
          res.2 = reqs + 1 →
          (extract_playlist_artists (pages offset) acc).2 = false
            ∧ (pages offset).length < limit) := by
  refine ⟨extract_stops_at_bad, ?_, ?_⟩
  · intro pages limit fuel offset acc reqs htrue
    cases hx : extract_playlist_artists (pages offset) acc with
    | mk acc2 b =>
      rw [hx] at htrue
      simp only at htrue
      subst htrue
      simp [request_all_playlist_artists_loop, hx]
  · intro pages limit fuel offset acc reqs res h hcount
    cases hx : extract_playlist_artists (pages offset) acc with
    | mk acc2 b =>
      simp only [request_all_playlist_artists_loop, hx] at h
      cases b
      · refine ⟨by simp [hx], ?_⟩
        by_cases hs : (pages offset).length < limit
        · exact hs
        · simp only [Bool.false_eq_true, if_false, if_neg hs] at h
          have := playlist_artists_loop_reqs_lt pages limit fuel (offset + limit)
            acc2 (reqs + 1) res h
          exact absurd hcount (by omega)
      · rw [if_pos rfl] at h
        have := playlist_artists_loop_reqs_lt pages limit fuel (offset + limit)
          acc2 (reqs + 1) res h
        exact absurd hcount (by omega)

/-- Witness for C10: the erroring short page at offset 0 does not stop the
loop; the loop recurses to offset 50. -/
theorem c10_keyerror_skips_short_page_check_witness :
    request_all_playlist_artists_loop c10pagesW 50 3 0 [] 0
      = request_all_playlist_artists_loop c10pagesW 50 2 50 [] 1 := by
  have h := c10_keyerror_skips_short_page_check.2.1 c10pagesW 50 2 0 [] 0 (by decide)
  simpa [c10pagesW, extract_playlist_artists] using h

/-- Claim C5: with the completion flag unset, the first `get_album_songs`
call performs exactly one populate/store/markComplete cycle in that order and
returns the read of the updated cache; the immediately following call issues
zero network requests, performs no cache events, leaves the store unchanged,
and returns the same cache read. -/
theorem c5_cache_gate_idempotent (pages : Nat → List AlbumTrackItem)
    (qualityKbps albumId artistId fuel : Nat) (db : AlbumSongsDb)
    (hdb : db.haveAllAlbumSongs = false)
    (songs : List Song) (reqs : Nat)
    (hsweep : request_all_album_songs pages qualityKbps albumId artistId fuel 0 [] 0
      = some (songs, reqs)) :
    ∃ r1 db1,
      get_album_songs pages qualityKbps albumId artistId fuel db
          = some (r1, db1, [.populate, .store, .markComplete], reqs)
        ∧ get_album_songs pages qualityKbps albumId artistId fuel db1
            = some (r1, db1, [], 0)
        ∧ r1 = db_get_album_songs db1
        ∧ db1.haveAllAlbumSongs = true := by
  refine ⟨db_get_album_songs (set_have_album_songs (store_album_songs db songs) true),
    set_have_album_songs (store_album_songs db songs) true, ?_, ?_, rfl, rfl⟩
  · simp [get_album_songs, have_all_album_songs, hdb, hsweep]
  · simp [get_album_songs, have_all_album_songs, set_have_album_songs]

/-- Witness for C5: a single empty page, an initially empty store. -/
theorem c5_cache_gate_idempotent_witness :
    ∃ r1 db1,
      get_album_songs (fun _ => []) 320 7 9 1 ⟨false, []⟩
          = some (r1, db1, [.populate, .store, .markComplete], 1)
        ∧ get_album_songs (fun _ => []) 320 7 9 1 db1 = some (r1, db1, [], 0)
        ∧ r1 = db_get_album_songs db1
        ∧ db1.haveAllAlbumSongs = true :=
  c5_cache_gate_idempotent (fun _ => []) 320 7 9 1 ⟨false, []⟩ rfl [] 1 rfl

theorem download_audio_loop_invariant (stream : Nat → Nat → ReadResult)
    (totalSize : Nat) (hs : ∀ i k n, stream i k = .data n → n ≤ k) :
    ∀ fuel downloaded failCount readIdx trace,
      downloaded ≤ totalSize →
      (∀ r ∈ trace, r.downloadedBefore ≤ totalSize
        ∧ r.requested = min CHUNK_SIZE (totalSize - r.downloadedBefore)) →
      ∀ d2 tr2,
        download_audio_loop stream totalSize fuel downloaded failCount readIdx trace
          = .finished d2 tr2 →
        d2 ≤ totalSize ∧ ∀ r ∈ tr2, r.downloadedBefore ≤ totalSize
          ∧ r.requested = min CHUNK_SIZE (totalSize - r.downloadedBefore) := by
  intro fuel
  induction fuel with
  | zero =>
    intro downloaded failCount readIdx trace _ _ d2 tr2 h
    simp [download_audio_loop] at h
  | succ fuel ih =>
    intro downloaded failCount readIdx trace hd htr d2 tr2 h
    rw [download_audio_loop] at h
    split at h
    · next hlt =>
      split at h
      · next hst => cases h
      · next n hst =>
        have htr2 : ∀ r ∈ trace ++
            [(⟨downloaded, min CHUNK_SIZE (totalSize - downloaded), n⟩ : ReadRec)],
            r.downloadedBefore ≤ totalSize
              ∧ r.requested = min CHUNK_SIZE (totalSize - r.downloadedBefore) := by
          intro r hr
          rcases List.mem_append.mp hr with hr | hr
          · exact htr r hr
          · rcases List.mem_singleton.mp hr with rfl
            exact ⟨by show downloaded ≤ totalSize; omega, rfl⟩
        split at h
        · next hn =>
          split at h
          · next hfc =>
            cases h
            exact ⟨hd, htr2⟩
          · next hfc =>
            exact ih downloaded (failCount + 1) (readIdx + 1) _ hd htr2 d2 tr2 h
        · next hn =>
          have hle : n ≤ min CHUNK_SIZE (totalSize - downloaded) := hs _ _ _ hst
          have hd2 : downloaded + n ≤ totalSize := by
            have := Nat.min_le_right CHUNK_SIZE (totalSize - downloaded)
            omega
          exact ih (downloaded + n) 0 (readIdx + 1) _ hd2 htr2 d2 tr2 h
    · next hlt =>
      cases h
      exact ⟨hd, htr⟩

/-- Claim C6: (1) for any stream whose reads return at most the requested
byte count, every finished run keeps `downloaded ≤ totalSize` and every read
call requests exactly `min(CHUNK_SIZE, totalSize - downloaded)` bytes; (2) on
a 125000-byte stream whose reads always return the full requested size, the
loop performs exactly 3 reads (50000, 50000, 25000) and returns a buffer of
length 125000. -/
theorem c6_download_chunking_invariant :
    (∀ (stream : Nat → Nat → ReadResult) (totalSize : Nat),
        (∀ i k n, stream i k = .data n → n ≤ k) →
        ∀ fuel d2 tr2,
          download_audio_loop stream totalSize fuel 0 0 0 [] = .finished d2 tr2 →
          d2 ≤ totalSize ∧ ∀ r ∈ tr2, r.downloadedBefore ≤ totalSize
            ∧ r.requested = min CHUNK_SIZE (totalSize - r.downloadedBefore))
      ∧ download_audio_loop (fun _ k => .data k) 125000 10 0 0 0 []
          = .finished 125000
              [⟨0, 50000, 50000⟩, ⟨50000, 50000, 50000⟩, ⟨100000, 25000, 25000⟩] := by
  constructor
  · intro stream totalSize hs fuel d2 tr2 h
    exact download_audio_loop_invariant stream totalSize hs fuel 0 0 0 []
      (Nat.zero_le _) (by simp) d2 tr2 h
  · decide

/-- Witness for C6: the invariant applied to the concrete exact-size stream
and its finished run. -/
theorem c6_download_chunking_invariant_witness :
    (125000 : Nat) ≤ 125000
      ∧ ∀ r ∈ [(⟨0, 50000, 50000⟩ : ReadRec), ⟨50000, 50000, 50000⟩,
          ⟨100000, 25000, 25000⟩], r.downloadedBefore ≤ 125000
          ∧ r.requested = min CHUNK_SIZE (125000 - r.downloadedBefore) :=
  c6_download_chunking_invariant.1 (fun _ k => .data k) 125000
    (fun _ _ _ h => by cases h; exact Nat.le_refl _) 10 125000 _
    c6_download_chunking_invariant.2

theorem download_audio_loop_empty_reads (totalSize : Nat) (ht : 0 < totalSize) :
    ∀ (r : Nat), 1 ≤ r → ∀ failCount, failCount + r = RETRY_DOWNLOAD + 1 →
      ∀ fuel, r ≤ fuel → ∀ readIdx trace,
        download_audio_loop (fun _ _ => .data 0) totalSize fuel 0 failCount readIdx trace
          = .finished 0
              (trace ++ List.replicate r ⟨0, min CHUNK_SIZE totalSize, 0⟩) := by
  intro r
  induction r with
  | zero => intro h; exact absurd h (by omega)
  | succ r ih =>
    intro _ failCount hfc fuel hfuel readIdx trace
    cases fuel with
    | zero => omega
    | succ fuel =>
      rw [download_audio_loop, if_pos ht]
      simp only [Nat.sub_zero]
      show (if RETRY_DOWNLOAD < failCount + 1 then
              DownloadOutcome.finished 0
                (trace ++ [⟨0, min CHUNK_SIZE totalSize, 0⟩])
            else download_audio_loop (fun _ _ => ReadResult.data 0) totalSize fuel 0
              (failCount + 1) (readIdx + 1)
              (trace ++ [⟨0, min CHUNK_SIZE totalSize, 0⟩]))
          = DownloadOutcome.finished 0
              (trace ++ List.replicate (r + 1) ⟨0, min CHUNK_SIZE totalSize, 0⟩)
      rcases Nat.eq_zero_or_pos r with hr0 | hr1
      · subst hr0
        rw [if_pos (by omega)]
        simp
      · rw [if_neg (by omega)]
        rw [ih hr1 (failCount + 1) (by omega) fuel (by omega) (readIdx + 1)
          (trace ++ [(⟨0, min CHUNK_SIZE totalSize, 0⟩ : ReadRec)])]
        rw [List.append_assoc, List.singleton_append, ← List.replicate_succ]

/-- Claim C7: (1) any non-empty read resets the consecutive-empty-read
counter to zero (the recursive call after a read of `n ≠ 0` bytes carries
fail count 0); (2) on a nonzero-size stream whose reads always return empty,
the loop terminates after exactly `RETRY_DOWNLOAD + 1 = 31` read calls and
returns the accumulated (empty, hence shorter than `totalSize`) buffer rather
than discarding it. -/
theorem c7_download_stall_tolerance :
    (∀ (stream : Nat → Nat → ReadResult) totalSize fuel downloaded failCount
        readIdx trace n,
        downloaded < totalSize →
        stream readIdx (min CHUNK_SIZE (totalSize - downloaded)) = .data n →
        n ≠ 0 →
        download_audio_loop stream totalSize (fuel + 1) downloaded failCount
            readIdx trace
          = download_audio_loop stream totalSize fuel (downloaded + n) 0
              (readIdx + 1)
              (trace ++ [⟨downloaded, min CHUNK_SIZE (totalSize - downloaded), n⟩]))
      ∧ (∀ totalSize fuel, 0 < totalSize → RETRY_DOWNLOAD + 1 ≤ fuel →
          download_audio_loop (fun _ _ => .data 0) totalSize fuel 0 0 0 []
            = .finished 0
                (List.replicate (RETRY_DOWNLOAD + 1)
                  ⟨0, min CHUNK_SIZE totalSize, 0⟩)) := by
  constructor
  · intro stream totalSize fuel downloaded failCount readIdx trace n hlt hst hn
    rw [download_audio_loop, if_pos hlt, hst]
    exact if_neg hn
  · intro totalSize fuel ht hfuel
    have h := download_audio_loop_empty_reads totalSize ht (RETRY_DOWNLOAD + 1)
      (by omega) 0 (by omega) fuel hfuel 0 []
    simpa using h

/-- Witness for C7: the all-empty-reads stream of total size 125000 with fuel
40 performs exactly 31 reads of 50000 requested bytes each. -/
theorem c7_download_stall_tolerance_witness :
    download_audio_loop (fun _ _ => .data 0) 125000 40 0 0 0 []
      = .finished 0 (List.replicate 31 ⟨0, min CHUNK_SIZE 125000, 0⟩) :=
  c7_download_stall_tolerance.2 125000 40 (by decide) (by decide)

/-- Claim C8: format detection inspects only the first 16 bytes (first
conjunct) and applies the rules in order — MPEG frame sync prefix `FF FB` or
`FF FA` gives mp3; failing that, RIFF and WAVE markers present give wav;
failing those, the FLAC magic prefix gives flac; failing those, the Ogg
capture pattern prefix gives ogg; and a buffer matching none of these fails
with the unrecognized-format error — together with a concrete run of each of
the four magics and of an arbitrary unrelated byte sequence. -/
theorem c8_format_sniffing :
    (∀ b1 b2 : List Nat, b1.take 16 = b2.take 16 →
        determine_file_extension b1 = determine_file_extension b2)
      ∧ (∀ b : List Nat,
          ([255, 251].isPrefixOf (b.take 16) || [255, 250].isPrefixOf (b.take 16))
              = true →
          determine_file_extension b = .ok .mp3)
      ∧ (∀ b : List Nat,
          ([255, 251].isPrefixOf (b.take 16) || [255, 250].isPrefixOf (b.take 16))
              = false →
          (bytesContain [82, 73, 70, 70] (b.take 16)
              && bytesContain [87, 65, 86, 69] (b.take 16)) = true →
          determine_file_extension b = .ok .wav)
      ∧ (∀ b : List Nat,
          ([255, 251].isPrefixOf (b.take 16) || [255, 250].isPrefixOf (b.take 16))
              = false →
          (bytesContain [82, 73, 70, 70] (b.take 16)
              && bytesContain [87, 65, 86, 69] (b.take 16)) = false →
          [102, 76, 97, 67].isPrefixOf (b.take 16) = true →
          determine_file_extension b = .ok .flac)
      ∧ (∀ b : List Nat,
          ([255, 251].isPrefixOf (b.take 16) || [255, 250].isPrefixOf (b.take 16))
              = false →
          (bytesContain [82, 73, 70, 70] (b.take 16)
              && bytesContain [87, 65, 86, 69] (b.take 16)) = false →
          [102, 76, 97, 67].isPrefixOf (b.take 16) = false →
          [79, 103, 103, 83].isPrefixOf (b.take 16) = true →
          determine_file_extension b = .ok .ogg)
      ∧ (∀ b : List Nat,
          ([255, 251].isPrefixOf (b.take 16) || [255, 250].isPrefixOf (b.take 16))
              = false →
          (bytesContain [82, 73, 70, 70] (b.take 16)
              && bytesContain [87, 65, 86, 69] (b.take 16)) = false →
          [102, 76, 97, 67].isPrefixOf (b.take 16) = false →
          [79, 103, 103, 83].isPrefixOf (b.take 16) = false →
          determine_file_extension b = .error "The audio stream is malformed.")
      ∧ determine_file_extension [255, 251, 0, 1, 2] = .ok .mp3
      ∧ determine_file_extension
          [82, 73, 70, 70, 16, 0, 0, 0, 87, 65, 86, 69, 1, 2, 3, 4, 99] = .ok .wav
      ∧ determine_file_extension [102, 76, 97, 67, 0, 0, 0, 34] = .ok .flac
      ∧ determine_file_extension [79, 103, 103, 83, 0, 2] = .ok .ogg
      ∧ determine_file_extension [1, 2, 3, 4, 5, 6, 7, 8]
          = .error "The audio stream is malformed." := by
  refine ⟨?_, ?_, ?_, ?_, ?_, ?_, rfl, rfl, rfl, rfl, rfl⟩
  · intro b1 b2 h
    simp only [determine_file_extension]
    rw [h]
  · intro b h1
    simp only [determine_file_extension]
    rw [if_pos h1]
  · intro b h1 h2
    simp only [determine_file_extension]
    rw [if_neg (by simp [h1]), if_pos h2]
  · intro b h1 h2 h3
    simp only [determine_file_extension]
    rw [if_neg (by simp [h1]), if_neg (by simp [h2]), if_pos h3]
  · intro b h1 h2 h3 h4
    simp only [determine_file_extension]
    rw [if_neg (by simp [h1]), if_neg (by simp [h2]), if_neg (by simp [h3]),
      if_pos h4]
  · intro b h1 h2 h3 h4
    simp only [determine_file_extension]
    rw [if_neg (by simp [h1]), if_neg (by simp [h2]), if_neg (by simp [h3]),
      if_neg (by simp [h4])]

/-- Witness for C8: the mp3 rule applied to a buffer with the `FF FA` sync. -/
theorem c8_format_sniffing_witness :
    determine_file_extension [255, 250, 9, 9] = .ok .mp3 :=
  c8_format_sniffing.2.1 [255, 250, 9, 9] (by decide)

theorem take2_centi : ∀ x < 1000,
    zfill2 ((natStr x).take 2)
      = zfill2 (natStr (if 100 ≤ x then x / 10 else x)) := by decide

theorem len2_small : ∀ x < 100, (zfill2 (natStr x)).length = 2 := by decide

theorem len2_take : ∀ x < 1000, (zfill2 ((natStr x).take 2)).length = 2 := by decide

theorem zfill2_len_ge (s : List Char) : 2 ≤ (zfill2 s).length := by
  unfold zfill2
  split
  · next h =>
    simp only [List.length_append, List.length_replicate]
    omega
  · next h => omega

/-- Claim C9 (amended): a LINE_SYNCED line with start time `t` ms is written
as `[MM:SS.CC]words` with `MM = t / 60000` and `SS = (t % 60000) / 1000`; the
`CC` field is the first two characters of the decimal rendering of
`t % 1000`, zero-padded — i.e. `(t % 1000) / 10` when `t % 1000 ≥ 100`, but
the full value `t % 1000` when it is below 100.  `SS` and `CC` are always
exactly two digits; `MM` is exactly two digits when below 100 and at least
two always (`zfill` pads but never truncates).  UNSYNCED lyrics are written
as plain lines without timestamps. -/
theorem c9_lrc_timestamp_amended :
    (∀ t : Nat,
        lrc_timestamp t
            = '[' :: zfill2 (natStr (t / 60000))
                ++ ':' :: zfill2 (natStr ((t % 60000) / 1000))
                ++ '.' :: zfill2 (natStr
                    (if 100 ≤ t % 1000 then (t % 1000) / 10 else t % 1000))
                ++ [']']
          ∧ (zfill2 (natStr ((t % 60000) / 1000))).length = 2
          ∧ (zfill2 ((natStr (t % 1000)).take 2)).length = 2
          ∧ (t / 60000 < 100 → (zfill2 (natStr (t / 60000))).length = 2)
          ∧ 2 ≤ (zfill2 (natStr (t / 60000))).length)
      ∧ (∀ l : LyricLine, write_lyric_line .unsynced l = l.words ++ ['\n'])
      ∧ (∀ l : LyricLine, write_lyric_line .lineSynced l
          = lrc_timestamp l.startTimeMs ++ l.words ++ ['\n']) := by
  refine ⟨?_, fun l => rfl, fun l => rfl⟩
  intro t
  have hmod1000 : t % 1000 < 1000 := Nat.mod_lt _ (by omega)
  have hmod60000 : t % 60000 < 60000 := Nat.mod_lt _ (by omega)
  refine ⟨?_, ?_, len2_take _ hmod1000, fun h => len2_small _ h, zfill2_len_ge _⟩
  · unfold lrc_timestamp
    rw [take2_centi (t % 1000) hmod1000]
  · exact len2_small _ (Nat.div_lt_of_lt_mul (by omega))

/-- Witness for C9 (amended): the formula instantiated at t = 45 ms. -/
theorem c9_lrc_timestamp_amended_witness :
    lrc_timestamp 45
      = '[' :: zfill2 (natStr (45 / 60000))
          ++ ':' :: zfill2 (natStr ((45 % 60000) / 1000))
          ++ '.' :: zfill2 (natStr
              (if 100 ≤ 45 % 1000 then (45 % 1000) / 10 else 45 % 1000))
          ++ [']'] :=
  (c9_lrc_timestamp_amended.1 45).1

/-- Claim C9 counterexample: at start time 45 ms the code writes
`[00:00.45]` (the first two characters of "45", zero-padded), while the
claim's centisecond formula `floor(45 / 10) = 4` demands `[00:00.04]`. -/
theorem c9_centiseconds_counterexample :
    lrc_timestamp 45 = ['[', '0', '0', ':', '0', '0', '.', '4', '5', ']']
      ∧ lrc_timestamp_spec 45 = ['[', '0', '0', ':', '0', '0', '.', '0', '4', ']']
      ∧ lrc_timestamp 45 ≠ lrc_timestamp_spec 45 := by
  refine ⟨?_, ?_, ?_⟩ <;> decide
